import Mathlib

/-!
Verification of the SecureWipe repository (device classification, wipe command
selection, scan error handling, progress parsing, utilization ring buffer and
cancellation dispatch) against its natural-language specification.

The Python sources are shallowly embedded: pure functions become Lean
functions; external command invocations (lsblk, smartctl, dd, iostat) become
explicit parameters carrying the response the external tool produced; Python
exceptions that the code does not catch are modelled with `Except`, where
`Except.error` means an exception escapes to the caller. Python floats are
modelled as exact rationals.
-/

/-! ## Python string primitives

The embeddings below mirror the exact Python string operations the sources
use: `str.startswith`, the `in` substring operator, `str.lower` (ASCII data
only in this program, where Lean `String.toLower` agrees with Python), and
`str.split()` with no separator (split on whitespace runs, dropping empties).
-/

/-- Lowercasing of one character; the program only ever compares lowercased
transport strings with the ASCII literal `"usb"`, where this agrees with
Python `str.lower`. -/
def pyLowerChar (c : Char) : Char :=
  if 65 ≤ c.toNat && c.toNat ≤ 90 then Char.ofNat (c.toNat + 32) else c

/-- Python `s.lower()` (ASCII range). -/
def pyLower (s : String) : String :=
  String.mk (s.toList.map pyLowerChar)

/-- Python `s.startswith(p)`. -/
def startsWithStr (s p : String) : Bool :=
  p.toList.isPrefixOf s.toList

/-- Python `s.startswith((p1, p2, ...))`: true when any listed string is a
prefix of `s`. -/
def startsWithAny (s : String) (ps : List String) : Bool :=
  ps.any (fun p => startsWithStr s p)

/-- Helper for the Python substring operator: scans each suffix of `hay` for
`needle` as a prefix. -/
def infixCheck (needle : List Char) : List Char → Bool
  | [] => needle.isPrefixOf []
  | c :: rest => needle.isPrefixOf (c :: rest) || infixCheck needle rest

/-- Python `needle in hay` on strings. -/
def containsSub (hay needle : String) : Bool :=
  infixCheck needle.toList hay.toList

theorem startsWith_containsSub {s p : String} (h : startsWithStr s p = true) :
    containsSub s p = true := by
  unfold startsWithStr at h
  unfold containsSub
  cases hs : s.toList with
  | nil => rw [hs] at h; unfold infixCheck; exact h
  | cons c rest =>
      rw [hs] at h
      unfold infixCheck
      rw [h, Bool.true_or]

/-- Value of a JSON string field of an `lsblk --json` record: the key can be
absent, present with value `null`, or present with a string value. -/
inductive JStr where
  | absent
  | null
  | str (s : String)
deriving DecidableEq, Repr

/-- Python `record.get(key, "").lower()`: an absent key falls back to the
empty string; a JSON `null` becomes Python `None`, and `None.lower()` raises
`AttributeError`, modelled as `Except.error`. -/
def pyGetLower : JStr → Except String String
  | .absent => .ok ""
  | .null => .error "AttributeError"
  | .str s => .ok (pyLower s)

instance {ε α : Type} [DecidableEq ε] [DecidableEq α] : DecidableEq (Except ε α)
  | .error a, .error b =>
      if h : a = b then .isTrue (by rw [h]) else .isFalse (by simp [h])
  | .error _, .ok _ => .isFalse (by simp)
  | .ok _, .error _ => .isFalse (by simp)
  | .ok a, .ok b =>
      if h : a = b then .isTrue (by rw [h]) else .isFalse (by simp [h])

/-! ## Data model (core.py lines 17-37)

`DeviceType` is the classification enum. `RawDeviceRecord` is one record of
the parsed `lsblk --json` block-device list: `name`, `dtype` (the `type`
key), `model`, `size` are modelled as absent-or-string (`Option String`),
`rota` as the JSON boolean, and `tran` with the full absent/null/string range
because the transport field is the one the sources call `.lower()` on and
lsblk does emit `"tran": null`. -/

inductive DeviceType where
  | HDD
  | SATA_SSD
  | NVME
  | USB
  | UNKNOWN
deriving DecidableEq, Repr

/-- The Python enum value string of each `DeviceType` member
(core.py lines 19-23). -/
def DeviceType.value : DeviceType → String
  | .HDD => "HDD"
  | .SATA_SSD => "SATA SSD"
  | .NVME => "NVME"
  | .USB => "USB"
  | .UNKNOWN => "UNKNOWN"

structure RawDeviceRecord where
  name : Option String
  tran : JStr
  rota : Bool
  dtype : Option String
  model : Option String
  size : Option String
deriving DecidableEq, Repr

/-- The `Device` dataclass (core.py lines 26-37). -/
structure Device where
  name : String
  path : String
  model : String
  size : String
  transport : String
  is_rotational : Bool
  classification : DeviceType
  evidence : List String
  wipe_commands : List String
deriving DecidableEq, Repr

namespace SecureWipeCore

/-- Embedding of `SecureWipeCore._determine_type` (core.py lines 118-154).
The response of the external `smartctl -i <path>` query issued in the disk
branch is passed as the parameter `smart`; `_run_command` returns either the
command output or a string starting with `"Error"` on failure, so query
failure is the case `startsWithStr smart "Error"`. The function returns the
determined type together with the evidence entries it appends; a JSON-null
transport raises `AttributeError` at `device.get("tran", "").lower()`,
modelled as `Except.error`. -/
def determine_type (device : RawDeviceRecord) (smart : String) :
    Except String (DeviceType × List String) :=
  match pyGetLower device.tran with
  | .error e => .error e
  | .ok transport =>
    let name := device.name.getD ""
    if transport = "usb" then
      .ok (.USB, ["Detected: USB transport"])
    else if startsWithStr name "nvme" then
      .ok (.NVME, ["Detected: NVMe device name"])
    else if device.dtype = some "disk" then
      if startsWithStr smart "Error" then
        .ok (.UNKNOWN, ["SMART: Data unavailable"])
      else if containsSub smart "Solid State Device" then
        .ok (.SATA_SSD, ["SMART: Confirmed SSD"])
      else if device.rota then
        .ok (.HDD, ["SMART: Confirmed rotational disk"])
      else
        .ok (.UNKNOWN, ["SMART: Non-rotational but not confirmed SSD"])
    else
      .ok (.UNKNOWN, ["Classification: Unable to determine type"])

/-- Embedding of `SecureWipeCore._get_wipe_commands` (core.py lines 156-178):
the pure dictionary lookup from classification to command-string list with
the device path substituted. -/
def get_wipe_commands (device_type : DeviceType) (device_path : String) :
    List String :=
  match device_type with
  | .HDD =>
      ["sudo nwipe --method dodshort " ++ device_path]
  | .SATA_SSD =>
      ["sudo hdparm --user-master u --security-set-pass p " ++ device_path,
       "sudo hdparm --user-master u --security-erase p " ++ device_path]
  | .NVME =>
      ["sudo nvme format " ++ device_path ++ " --ses=1"]
  | .USB =>
      ["sudo dd if=/dev/zero of=" ++ device_path ++ " bs=1M status=progress",
       "# Alternative: sudo shred -vfz -n 1 " ++ device_path]
  | .UNKNOWN =>
      ["# STOP: Cannot recommend commands for unknown device type",
       "# Manual verification required before any wipe operation"]

/-- Embedding of `SecureWipeCore._classify_device` (core.py lines 86-116):
builds the evidence trail, runs `_determine_type`, selects the wipe commands
and assembles the `Device` record. The `.lower()` call on a JSON-null
transport (line 89) raises, modelled as `Except.error`. -/
def classify_device (raw_device : RawDeviceRecord) (smart : String) :
    Except String Device :=
  match pyGetLower raw_device.tran with
  | .error e => .error e
  | .ok transport =>
    let name := raw_device.name.getD ""
    let device_path := "/dev/" ++ name
    let evidence :=
      ["Transport: " ++ (if transport = "" then "N/A" else transport),
       "Rotational: " ++ (if raw_device.rota then "Yes" else "No"),
       "Type: " ++ raw_device.dtype.getD "N/A"]
    match determine_type raw_device smart with
    | .error e => .error e
    | .ok (classification, extra) =>
      .ok { name := name
            path := device_path
            model := raw_device.model.getD "Unknown"
            size := raw_device.size.getD "Unknown"
            transport := if transport = "" then "Unknown" else transport
            is_rotational := raw_device.rota
            classification := classification
            evidence := evidence ++ extra
            wipe_commands := get_wipe_commands classification device_path }

end SecureWipeCore

namespace DeviceClassifier

/-- Embedding of `DeviceClassifier.classify` (pyscript.py lines 49-89).
As with the core classifier, `smart` is the response of the external
`smartctl -i <path>` query. Differences faithfully kept from the source:
`name = device.get("name")` has no string default, so a missing name raises
`AttributeError` at `name.startswith("nvme")` (only reached when the
transport is not usb); the unreliable-data test is
`"Error" in smartctl_output or "Unavailable" in smartctl_output`, substring
containment rather than a prefix test. The returned evidence strings contain
the apostrophes of the Python f-strings, written `\x27`. -/
def classify (device : RawDeviceRecord) (smart : String) :
    Except String (String × List String) :=
  match pyGetLower device.tran with
  | .error e => .error e
  | .ok transport =>
    let evidence :=
      ["[lsblk] Transport Type: \x27" ++
         (if transport = "" then "N/A" else transport) ++ "\x27",
       "[lsblk] Is Rotational: " ++ (if device.rota then "True" else "False")]
    if transport = "usb" then
      .ok ("USB", evidence)
    else
      match device.name with
      | none => .error "AttributeError"
      | some name =>
        if startsWithStr name "nvme" then
          .ok ("NVME", evidence)
        else if device.dtype = some "disk" then
          if containsSub smart "Error" || containsSub smart "Unavailable" then
            .ok ("UNKNOWN",
              evidence ++ ["[smartctl] Result: Could not get reliable SMART data."])
          else if containsSub smart "Solid State Device" then
            .ok ("SATA SSD",
              evidence ++ ["[smartctl] Result: Confirmed as Solid State Device."])
          else if device.rota then
            .ok ("HDD",
              evidence ++ ["[smartctl] Result: Confirmed as a Rotational Device."])
          else
            .ok ("UNKNOWN",
              evidence ++
                ["[smartctl] Result: CONFLICT! Non-rotational but not confirmed as SSD."])
        else
          .ok ("UNKNOWN", evidence)

/-- Embedding of the static `DeviceClassifier.get_wipe_command`
(pyscript.py lines 91-107): dictionary lookup on the classification string,
falling back to the UNKNOWN entry for any string that is not a key. -/
def get_wipe_command (classification : String) (device_path : String) :
    List String :=
  if classification = "HDD" then
    ["sudo nwipe --method dodshort " ++ device_path]
  else if classification = "SATA SSD" then
    ["sudo hdparm --user-master u --security-set-pass p " ++ device_path,
     "sudo hdparm --user-master u --security-erase p " ++ device_path]
  else if classification = "NVME" then
    ["sudo nvme format " ++ device_path ++ " --ses=1"]
  else if classification = "USB" then
    ["sudo dd if=/dev/zero of=" ++ device_path ++ " bs=1M status=progress",
     "(Alternative: sudo shred -vfz -n 1 " ++ device_path ++ ")"]
  else
    ["HALT: Cannot recommend a safe command for an unknown device."]

end DeviceClassifier

namespace SecureWipeCore

/-- Outcome of the `lsblk --json` inventory query as observed by
`scan_devices` (core.py lines 57-66): the helper `_run_command` either
returns a string starting with `"Error"` (`cmdError`, carrying that full
output string), or output on which `json.loads` raises `JSONDecodeError`
(`jsonDecodeError`, carrying the exception text), or parsed JSON without the
`"blockdevices"` key so that indexing raises `KeyError` (`keyError`), or the
parsed list of block-device records. -/
inductive LsblkOutcome where
  | cmdError (msg : String)
  | jsonDecodeError (emsg : String)
  | keyError (emsg : String)
  | devices (devs : List RawDeviceRecord)

/-- The virtual-device filter of core.py lines 69-72 with
`ignore_prefixes = ("loop", "zram", "dm-")` (line 47). -/
def filter_physical (devs : List RawDeviceRecord) : List RawDeviceRecord :=
  devs.filter (fun d => !(startsWithAny (d.name.getD "") ["loop", "zram", "dm-"]))

/-- The classification loop of core.py lines 75-78: `_classify_device` on
each record in order; an exception escaping from one record aborts the whole
scan, modelled by propagating the `Except.error`. `smartOf` maps a device
path to the response of the smartctl query for that path. -/
def classify_all (smartOf : String → String) :
    List RawDeviceRecord → Except String (List Device)
  | [] => .ok []
  | d :: rest =>
    match classify_device d (smartOf ("/dev/" ++ d.name.getD "")) with
    | .error e => .error e
    | .ok dev =>
      match classify_all smartOf rest with
      | .error e => .error e
      | .ok devs => .ok (dev :: devs)

/-- Embedding of `SecureWipeCore.scan_devices` (core.py lines 50-84),
including its effect on the `_devices_cache` field: the function takes the
cache before the call and returns the Python result triple
`(success, message, devices)` (or an uncaught exception) paired with the
cache after the call. The cache is replaced wholesale at line 80 only on the
success path. -/
def scan_devices (cache : List Device) (out : LsblkOutcome)
    (smartOf : String → String) :
    Except String (Bool × String × List Device) × List Device :=
  match out with
  | .cmdError msg =>
      (.ok (false, "Failed to get device list: " ++ msg, []), cache)
  | .jsonDecodeError e =>
      (.ok (false, "Failed to parse device data: " ++ e, []), cache)
  | .keyError e =>
      (.ok (false, "Failed to parse device data: " ++ e, []), cache)
  | .devices devs =>
    match classify_all smartOf (filter_physical devs) with
    | .error e => (.error e, cache)
    | .ok classified =>
        (.ok (true, "Found " ++ toString classified.length ++ " devices",
              classified),
         classified)

/-- Embedding of `SecureWipeCore.get_device_by_path` (core.py lines 210-215):
first cached device whose path matches. -/
def get_device_by_path (cache : List Device) (device_path : String) :
    Option Device :=
  match cache with
  | [] => none
  | device :: rest =>
      if device.path = device_path then some device
      else get_device_by_path rest device_path

end SecureWipeCore

namespace SecureWipeGUI

/-! ## Utilization ring buffer (gui.py lines 44-45 and 706-718)

`self.util_history = collections.deque(maxlen=60)`: a bounded deque that,
when appending to a full buffer, silently discards the element at the
opposite (oldest) end. `_update_utilization` appends one parsed utilization
sample per call. -/

/-- One `deque.append` on a deque with the given `maxlen`. -/
def dequeAppend {α : Type} (maxlen : Nat) (q : List α) (x : α) : List α :=
  if q.length < maxlen then q ++ [x] else q.drop 1 ++ [x]

/-- The append performed by `_update_utilization` (gui.py line 712) on the
utilization history, whose `maxlen` is 60 (gui.py line 45). -/
def util_history_append (q : List ℚ) (x : ℚ) : List ℚ :=
  dequeAppend 60 q x

/-! ## Wipe terminal-state dispatch and cancellation (gui.py 725, 794-803, 861-889) -/

/-- Terminal outcomes of a wipe session as handled by the tail of
`_monitor_wipe_progress`: `_wipe_completed`, `_wipe_cancelled`, or
`_wipe_error msg`. -/
inductive WipeEnd where
  | completed
  | cancelled
  | failed (msg : String)
deriving DecidableEq, Repr

/-- Embedding of the dispatch at gui.py lines 794-803, executed after the
monitor loop ends: `return_code = self.wipe_process.returncode`; exit code 0
goes to `_wipe_completed`, a still-unset (`None`) return code goes to
`_wipe_cancelled`, and anything else goes to
`_wipe_error(f"Wipe failed with exit code {return_code}")`. -/
def finish_state : Option Int → WipeEnd
  | some 0 => .completed
  | none => .cancelled
  | some c => .failed ("Wipe failed with exit code " ++ toString c)

/-- Modelled from the process environment of `_cancel_wipe` (gui.py lines
872-879): the two-phase cancellation sends SIGTERM (signal 15) to the
process group, sleeps the 0.5 s grace interval, and sends SIGKILL
(signal 9) if the process is still alive. POSIX reports a child terminated
by signal N through a `Popen` return code of `-N`, so after the two-phase
cancel the return code is `-15` when the child died within the grace
interval and `-9` otherwise; in both cases it is set (not `None`). -/
def cancel_returncode (dies_in_grace : Bool) : Int :=
  if dies_in_grace then -15 else -9

/-! ## Progress-line parsing (gui.py lines 720-764)

`_monitor_wipe_progress` reads dd output lines and applies
`re.search` with the raw pattern `(\d+) bytes.*copied.*?(\d+\.?\d*) s.*?(\d+\.?\d*) [KMGT]?B/s`.
The regular-expression fragment used (literals, `\d`, a character class,
`.`, concatenation, `?`, greedy `+`, greedy `*`, lazy `*?`, numbered
groups) is embedded below with Python `re` leftmost-search backtracking
semantics. -/

/-- Syntax of the regular-expression fragment. -/
inductive RE where
  | lit : Char → RE
  | strLit : List Char → RE
  | digit : RE
  | cls : List Char → RE
  | dot : RE
  | seq : RE → RE → RE
  | opt : RE → RE
  | starG : RE → RE
  | starL : RE → RE
  | plusG : RE → RE
  | group : Nat → RE → RE

/-- Captured groups: most recent capture first. -/
abbrev Caps := List (Nat × List Char)

/-- Backtracking matcher in continuation-passing style, mirroring the Python
`re` engine on this fragment: greedy operators try the longer match first,
lazy `*?` tries the continuation first, `?` tries presence first. The fuel
argument only bounds recursion depth (each star iteration consumes at least
one character, so any successful match needs fuel linear in the input). -/
def reMatch : Nat → RE → List Char → Caps →
    (List Char → Caps → Option Caps) → Option Caps
  | 0, _, _, _, _ => none
  | _ + 1, .lit c, s, caps, k =>
      match s with
      | [] => none
      | c2 :: rest => if c2 = c then k rest caps else none
  | _ + 1, .strLit t, s, caps, k =>
      if t.isPrefixOf s then k (s.drop t.length) caps else none
  | _ + 1, .digit, s, caps, k =>
      match s with
      | [] => none
      | c2 :: rest => if c2.isDigit then k rest caps else none
  | _ + 1, .cls cs, s, caps, k =>
      match s with
      | [] => none
      | c2 :: rest => if cs.contains c2 then k rest caps else none
  | _ + 1, .dot, s, caps, k =>
      match s with
      | [] => none
      | c2 :: rest => if c2 = '\n' then none else k rest caps
  | fuel + 1, .seq a b, s, caps, k =>
      reMatch fuel a s caps (fun s2 caps2 => reMatch fuel b s2 caps2 k)
  | fuel + 1, .opt a, s, caps, k =>
      (reMatch fuel a s caps k).orElse (fun _ => k s caps)
  | fuel + 1, .starG a, s, caps, k =>
      (reMatch fuel a s caps (fun s2 caps2 =>
          if s2.length < s.length then reMatch fuel (.starG a) s2 caps2 k
          else none)).orElse
        (fun _ => k s caps)
  | fuel + 1, .starL a, s, caps, k =>
      (k s caps).orElse (fun _ =>
        reMatch fuel a s caps (fun s2 caps2 =>
          if s2.length < s.length then reMatch fuel (.starL a) s2 caps2 k
          else none))
  | fuel + 1, .plusG a, s, caps, k =>
      reMatch fuel a s caps (fun s2 caps2 => reMatch fuel (.starG a) s2 caps2 k)
  | fuel + 1, .group n a, s, caps, k =>
      reMatch fuel a s caps (fun s2 caps2 =>
        k s2 ((n, s.take (s.length - s2.length)) :: caps2))

/-- Python `re.search` semantics: try a match at each start position from the
left; the match may end before the end of the input. -/
def reSearchAux (re : RE) : List Char → Option Caps
  | [] => reMatch 1000 re [] [] (fun _ caps => some caps)
  | c :: rest =>
      match reMatch 1000 re (c :: rest) [] (fun _ caps => some caps) with
      | some caps => some caps
      | none => reSearchAux re rest

def reSearch (re : RE) (s : String) : Option Caps :=
  reSearchAux re s.toList

def capLookup (n : Nat) (caps : Caps) : Option String :=
  (caps.find? (fun p => p.1 = n)).map (fun p => String.mk p.2)

/-- The sub-expression `\d+\.?\d*`. -/
def numRE : RE :=
  .seq (.plusG .digit) (.seq (.opt (.lit '.')) (.starG .digit))

/-- The dd progress pattern of gui.py line 731:
`(\d+) bytes.*copied.*?(\d+\.?\d*) s.*?(\d+\.?\d*) [KMGT]?B/s`. -/
def ddRE : RE :=
  .seq (.group 1 (.plusG .digit))
   (.seq (.strLit " bytes".toList)
    (.seq (.starG .dot)
     (.seq (.strLit "copied".toList)
      (.seq (.starL .dot)
       (.seq (.group 2 numRE)
        (.seq (.strLit " s".toList)
         (.seq (.starL .dot)
          (.seq (.group 3 numRE)
           (.seq (.lit ' ')
            (.seq (.opt (.cls ['K', 'M', 'G', 'T']))
             (.strLit "B/s".toList)))))))))))

/-- The speed-number pattern of gui.py line 739: `(\d+\.?\d*)`. -/
def numSearchRE : RE := .group 1 numRE

/-- Python `int` of a decimal-digit string. -/
def parseNatStr (s : String) : Nat :=
  s.toList.foldl (fun a c => a * 10 + (c.toNat - 48)) 0

/-- Python `float` of a string of shape `\d+\.?\d*`, as an exact rational. -/
def parseDecStr (s : String) : ℚ :=
  match s.toList.splitOn '.' with
  | [i] => (parseNatStr (String.mk i) : ℚ)
  | [i, f] =>
      (parseNatStr (String.mk i) : ℚ) +
        (parseNatStr (String.mk f) : ℚ) / ((10 : ℚ) ^ (String.mk f).length)
  | _ => 0

/-- Lines 728-734: apply the dd regex to an output line; on a match, group 1
is converted with `int` (bytes copied) and group 2 with `float` (elapsed
seconds). Unmatched lines yield no sample. -/
def parseDdLine (line : String) : Option (Nat × ℚ) :=
  match reSearch ddRE line with
  | none => none
  | some caps =>
    match capLookup 1 caps, capLookup 2 caps with
    | some g1, some g2 => some (parseNatStr g1, parseDecStr g2)
    | _, _ => none

/-- Python `output.split()` with no argument: split on whitespace runs,
dropping empty tokens. -/
def pySplitWs (s : String) : List String :=
  ((s.toList.splitOnP (fun c => c.isWhitespace)).filter
      (fun t => t ≠ [])).map String.mk

/-- Line 735: `speed_text = output.split()[-1]`, the final whitespace-
separated token of the line (`none` models the IndexError on an empty
split, which cannot occur on a line the dd regex matched). -/
def speedToken (line : String) : Option String :=
  (pySplitWs line).getLast?

/-- Lines 739-741: search the final token for `(\d+\.?\d*)` and convert the
capture with `float`. -/
def firstNumber (s : String) : Option String :=
  match reSearch numSearchRE s with
  | none => none
  | some caps => capLookup 1 caps

/-- Lines 742-749: unit normalization of the parsed speed value using
substring tests on the token (`GB/s` times 1024, `MB/s` unchanged, `KB/s`
divided by 1024, anything else unchanged). -/
def normalizeSpeed (speed_text : String) (v : ℚ) : ℚ :=
  if containsSub speed_text "GB/s" then v * 1024
  else if containsSub speed_text "MB/s" then v
  else if containsSub speed_text "KB/s" then v / 1024
  else v

/-- Lines 735-754 as a whole: the value of `self.last_dd_speed` after
processing one regex-matched line, given the value it held before. When the
inner `re.search` on the final token finds no number, the guarded assignment
is skipped and the stored speed is unchanged. -/
def last_dd_speed_after (prev : ℚ) (line : String) : ℚ :=
  match speedToken line with
  | none => prev
  | some tok =>
    match firstNumber tok with
    | none => prev
    | some numStr => normalizeSpeed tok (parseDecStr numStr)

/-- Lines 757-758: the progress percentage, computed as
`(bytes_copied / total_size) * 100` only when `total_size > 0`; no
percentage is produced when the total size is unknown (zero). -/
def progress_percent (bytes_copied total_size : Nat) : Option ℚ :=
  if 0 < total_size then
    some ((bytes_copied : ℚ) / (total_size : ℚ) * 100)
  else none

end SecureWipeGUI

/-! ## Claims -/

/-- C1: For every device path, every string in the UNKNOWN command list of
both command selectors (`_get_wipe_commands` in core.py and
`get_wipe_command` in pyscript.py) is a non-actionable placeholder — a `#`
shell-comment line or a `HALT:` sentence — and none is an executable
destructive command (none starts with `sudo`, unlike every command of the
other classifications). -/
theorem C1_unknown_commands_are_placeholders (device_path c : String)
    (h : c ∈ SecureWipeCore.get_wipe_commands .UNKNOWN device_path ∨
         c ∈ DeviceClassifier.get_wipe_command "UNKNOWN" device_path) :
    (startsWithStr c "#" || startsWithStr c "HALT") = true ∧
    startsWithStr c "sudo" = false := by
  rcases h with h | h
  · rw [show SecureWipeCore.get_wipe_commands .UNKNOWN device_path =
        ["# STOP: Cannot recommend commands for unknown device type",
         "# Manual verification required before any wipe operation"] from rfl] at h
    simp only [List.mem_cons, List.not_mem_nil, or_false] at h
    rcases h with rfl | rfl <;> exact ⟨by decide, by decide⟩
  · rw [show DeviceClassifier.get_wipe_command "UNKNOWN" device_path =
        ["HALT: Cannot recommend a safe command for an unknown device."] from rfl] at h
    simp only [List.mem_cons, List.not_mem_nil, or_false] at h
    rcases h with rfl
    exact ⟨by decide, by decide⟩

/-- Witness for C1 at a concrete command string of the UNKNOWN list. -/
theorem C1_witness :
    (startsWithStr "# STOP: Cannot recommend commands for unknown device type" "#" ||
     startsWithStr "# STOP: Cannot recommend commands for unknown device type" "HALT") = true ∧
    startsWithStr "# STOP: Cannot recommend commands for unknown device type" "sudo" = false :=
  C1_unknown_commands_are_placeholders "/dev/sdb" _ (Or.inl (by decide))

/-- C6: a record whose transport attribute lowercases to `"usb"` is
classified USB by both classifiers, whatever the name, rotational flag,
device type and model are; in particular an NVMe-named record with USB
transport is classified USB. -/
theorem C6_usb_transport_wins (dev : RawDeviceRecord) (smart t : String)
    (htran : dev.tran = .str t) (husb : pyLower t = "usb") :
    SecureWipeCore.determine_type dev smart
      = .ok (.USB, ["Detected: USB transport"]) ∧
    Except.map Prod.fst (DeviceClassifier.classify dev smart) = .ok "USB" := by
  constructor
  · unfold SecureWipeCore.determine_type
    rw [htran]
    simp [pyGetLower, husb]
  · unfold DeviceClassifier.classify
    rw [htran]
    simp [pyGetLower, husb, Except.map]

/-- Witness for C6: an NVMe-named, non-rotational disk record whose
transport is the mixed-case string `"USB"`. -/
theorem C6_witness :
    SecureWipeCore.determine_type
        ⟨some "nvme0n1", .str "USB", false, some "disk", none, none⟩ "x"
      = .ok (.USB, ["Detected: USB transport"]) ∧
    Except.map Prod.fst (DeviceClassifier.classify
        ⟨some "nvme0n1", .str "USB", false, some "disk", none, none⟩ "x")
      = .ok "USB" :=
  C6_usb_transport_wins _ "x" "USB" rfl (by decide)

theorem util_append_length_le (q : List ℚ) (x : ℚ) (h : q.length ≤ 60) :
    (SecureWipeGUI.util_history_append q x).length ≤ 60 := by
  unfold SecureWipeGUI.util_history_append SecureWipeGUI.dequeAppend
  by_cases hlt : q.length < 60
  · simp only [hlt, if_true, List.length_append, List.length_singleton]
    omega
  · simp only [hlt, if_false, List.length_append, List.length_drop,
      List.length_singleton]
    omega

/-- C8: the utilization history, built from the empty deque by any sequence
of `_update_utilization` appends, never exceeds 60 entries; and one more
append on a full 60-entry history evicts exactly the oldest entry, keeping
the order of the remaining 59 followed by the new sample, for a length of
again 60. -/
theorem C8_util_ring_buffer (samples : List ℚ) (q : List ℚ) (x : ℚ)
    (hq : q.length = 60) :
    (samples.foldl SecureWipeGUI.util_history_append []).length ≤ 60 ∧
    SecureWipeGUI.util_history_append q x = q.drop 1 ++ [x] ∧
    (SecureWipeGUI.util_history_append q x).length = 60 := by
  refine ⟨?_, ?_, ?_⟩
  · have general : ∀ (l : List ℚ) (acc : List ℚ), acc.length ≤ 60 →
        (l.foldl SecureWipeGUI.util_history_append acc).length ≤ 60 := by
      intro l
      induction l with
      | nil => intro acc h; simpa using h
      | cons a rest ih =>
          intro acc h
          exact ih _ (util_append_length_le acc a h)
    exact general samples [] (by simp)
  · unfold SecureWipeGUI.util_history_append SecureWipeGUI.dequeAppend
    simp [hq]
  · unfold SecureWipeGUI.util_history_append SecureWipeGUI.dequeAppend
    simp [hq]

/-- Witness for C8: three appends from empty, and one append on a full
60-entry history. -/
theorem C8_witness :
    (([12, 34, 56] : List ℚ).foldl SecureWipeGUI.util_history_append []).length ≤ 60 ∧
    SecureWipeGUI.util_history_append (List.replicate 60 (0 : ℚ)) 7
      = (List.replicate 60 (0 : ℚ)).drop 1 ++ [7] ∧
    (SecureWipeGUI.util_history_append (List.replicate 60 (0 : ℚ)) 7).length = 60 :=
  C8_util_ring_buffer [12, 34, 56] _ 7 (by simp)

/-- C10: whenever `scan_devices` returns with `success = false`, the device
cache is left exactly as it was before the call, so a lookup by path and
the cached-device count observe the pre-scan cache unchanged. -/
theorem C10_failed_scan_preserves_cache (cache : List Device)
    (out : SecureWipeCore.LsblkOutcome) (smartOf : String → String)
    (msg : String) (ds : List Device) (p : String)
    (h : (SecureWipeCore.scan_devices cache out smartOf).1 = .ok (false, msg, ds)) :
    (SecureWipeCore.scan_devices cache out smartOf).2 = cache ∧
    SecureWipeCore.get_device_by_path
        (SecureWipeCore.scan_devices cache out smartOf).2 p
      = SecureWipeCore.get_device_by_path cache p ∧
    (SecureWipeCore.scan_devices cache out smartOf).2.length = cache.length := by
  have hc : (SecureWipeCore.scan_devices cache out smartOf).2 = cache := by
    cases out with
    | cmdError m => rfl
    | jsonDecodeError e => rfl
    | keyError e => rfl
    | devices devs =>
        simp only [SecureWipeCore.scan_devices] at h ⊢
        cases hcl : SecureWipeCore.classify_all smartOf
            (SecureWipeCore.filter_physical devs) with
        | error e => rfl
        | ok cl => rw [hcl] at h; simp at h
  exact ⟨hc, by rw [hc], by rw [hc]⟩

/-- Witness for C10: a failed inventory query on an empty cache. -/
theorem C10_witness :
    (SecureWipeCore.scan_devices [] (.cmdError "boom") (fun _ => "")).2 = [] ∧
    SecureWipeCore.get_device_by_path
        (SecureWipeCore.scan_devices [] (.cmdError "boom") (fun _ => "")).2 "/dev/sda"
      = SecureWipeCore.get_device_by_path [] "/dev/sda" ∧
    (SecureWipeCore.scan_devices [] (.cmdError "boom") (fun _ => "")).2.length
      = ([] : List Device).length :=
  C10_failed_scan_preserves_cache [] _ _ "Failed to get device list: boom" [] "/dev/sda" rfl

/-- C7 counterexample: the claim as stated is false. A well-formed inventory
response holding one record whose transport field is JSON `null` (which
`lsblk --json` does emit) makes `scan_devices` raise `AttributeError` at
`raw_device.get("tran", "").lower()` instead of returning a failure triple:
the exception escapes to the caller, because the `except` clause at
core.py line 83 only catches `JSONDecodeError` and `KeyError`. -/
theorem C7_counterexample :
    (SecureWipeCore.scan_devices []
        (.devices [⟨some "sda", .null, false, some "disk", none, none⟩])
        (fun _ => "")).1 = .error "AttributeError" := by decide

/-- C7 amended: for the inventory-query outcomes the code anticipates — the
query command erroring, output that is not JSON, or parsed JSON without the
expected key — `scan_devices` returns `success = false` with a diagnostic
message and an empty device list, without raising; but a record with a null
transport field raises an uncaught `AttributeError` (see the
counterexample), so the guarantee does not extend to arbitrary field
values. -/
theorem C7_amended_graceful_failures (cache : List Device)
    (smartOf : String → String) (m e1 e2 : String) :
    (SecureWipeCore.scan_devices cache (.cmdError m) smartOf).1
      = .ok (false, "Failed to get device list: " ++ m, []) ∧
    (SecureWipeCore.scan_devices cache (.jsonDecodeError e1) smartOf).1
      = .ok (false, "Failed to parse device data: " ++ e1, []) ∧
    (SecureWipeCore.scan_devices cache (.keyError e2) smartOf).1
      = .ok (false, "Failed to parse device data: " ++ e2, []) :=
  ⟨rfl, rfl, rfl⟩

/-- C4 counterexample: the claim as stated is false — the progress
computation at gui.py line 758 is `(bytes_copied / total_size) * 100` with
no clamping, so a sample with more bytes copied than the stored total yields
a percentage above 100. -/
theorem C4_counterexample :
    SecureWipeGUI.progress_percent 200 100 = some 200 ∧
    ¬ ((200 : ℚ) ≤ 100) := by
  constructor
  · unfold SecureWipeGUI.progress_percent
    norm_num
  · norm_num

/-- C4 amended: the reported percent equals
`bytes_copied / bytes_total × 100` exactly, with no clamping (it exceeds 100
whenever bytes_copied exceeds bytes_total, see the counterexample); no
percent is reported when the total is unknown (zero); and whenever
`bytes_copied ≤ bytes_total` the value does lie in `[0, 100]`. -/
theorem C4_percent_unclamped (b t : Nat) :
    (0 < t → SecureWipeGUI.progress_percent b t
        = some ((b : ℚ) / (t : ℚ) * 100)) ∧
    (t = 0 → SecureWipeGUI.progress_percent b t = none) ∧
    (0 < t → b ≤ t → ∀ q : ℚ, SecureWipeGUI.progress_percent b t = some q →
        0 ≤ q ∧ q ≤ 100) := by
  refine ⟨fun ht => by simp [SecureWipeGUI.progress_percent, ht],
          fun ht => by simp [SecureWipeGUI.progress_percent, ht],
          fun ht hbt q hq => ?_⟩
  simp only [SecureWipeGUI.progress_percent, ht, if_true, Option.some.injEq] at hq
  subst hq
  have htq : (0 : ℚ) < (t : ℚ) := by exact_mod_cast ht
  have hb : (b : ℚ) ≤ (t : ℚ) := by exact_mod_cast hbt
  constructor
  · positivity
  · rw [div_mul_eq_mul_div, div_le_iff₀ htq]
    nlinarith

/-- Witness for C4 amended, at 50 of 100 bytes and at an unknown total. -/
theorem C4_witness :
    SecureWipeGUI.progress_percent 50 100
      = some (((50 : Nat) : ℚ) / ((100 : Nat) : ℚ) * 100) ∧
    SecureWipeGUI.progress_percent 50 0 = none ∧
    (0 ≤ ((50 : Nat) : ℚ) / ((100 : Nat) : ℚ) * 100 ∧
     ((50 : Nat) : ℚ) / ((100 : Nat) : ℚ) * 100 ≤ 100) :=
  ⟨(C4_percent_unclamped 50 100).1 (by norm_num),
   (C4_percent_unclamped 50 0).2.1 rfl,
   (C4_percent_unclamped 50 100).2.2 (by norm_num) (by norm_num) _
     ((C4_percent_unclamped 50 100).1 (by norm_num))⟩

/-- C2 counterexample: the claim as stated is false for the core classifier.
On a disk-type record that is neither USB-transport nor NVMe-named, a
successful identity-query response that contains the explicit "Unavailable"
marker and also the solid-state marker is classified SATA_SSD, not UNKNOWN:
`_determine_type` (core.py lines 138-144) only treats a response beginning
with the `"Error"` prefix as unreliable and has no unavailable-marker
test. -/
theorem C2_counterexample :
    SecureWipeCore.determine_type
        ⟨some "sda", .str "sata", false, some "disk", none, none⟩
        "SMART support is: Unavailable. Solid State Device"
      = .ok (.SATA_SSD, ["SMART: Confirmed SSD"]) ∧
    containsSub "SMART support is: Unavailable. Solid State Device"
        "Unavailable" = true ∧
    startsWithStr "SMART support is: Unavailable. Solid State Device"
        "Error" = false ∧
    DeviceType.SATA_SSD ≠ DeviceType.UNKNOWN := by
  exact ⟨by decide, by decide, by decide, by decide⟩

/-- C2 amended: on a disk-type record that is neither USB-transport nor
NVMe-named, the core classifier returns UNKNOWN with the unreliable-data
evidence exactly when the identity query fails (response beginning with the
`"Error"` prefix produced by `_run_command`); the explicit "unavailable"
marker is honoured only by the legacy classifier of pyscript.py, which
returns UNKNOWN whenever the response contains `"Error"` or `"Unavailable"`
anywhere, even if the response also contains the solid-state marker. -/
theorem C2_unreliable_data_unknown (n t : String) (rota : Bool)
    (m sz : Option String) (smart : String)
    (husb : pyLower t ≠ "usb") (hnvme : startsWithStr n "nvme" = false) :
    (startsWithStr smart "Error" = true →
      SecureWipeCore.determine_type ⟨some n, .str t, rota, some "disk", m, sz⟩ smart
        = .ok (.UNKNOWN, ["SMART: Data unavailable"])) ∧
    ((containsSub smart "Error" || containsSub smart "Unavailable") = true →
      ∃ ev, DeviceClassifier.classify ⟨some n, .str t, rota, some "disk", m, sz⟩ smart
        = .ok ("UNKNOWN", ev)) := by
  constructor
  · intro herr
    unfold SecureWipeCore.determine_type
    simp [pyGetLower, husb, hnvme, herr]
  · intro hmark
    unfold DeviceClassifier.classify
    simp [pyGetLower, husb, hnvme, hmark]

/-- Witness for C2 amended: a failing query for the core classifier, and a
mid-text "Unavailable" marker next to the solid-state marker for the legacy
classifier. -/
theorem C2_witness :
    SecureWipeCore.determine_type
        ⟨some "sda", .str "sata", true, some "disk", none, none⟩
        "Error: smartctl failed"
      = .ok (.UNKNOWN, ["SMART: Data unavailable"]) ∧
    ∃ ev, DeviceClassifier.classify
        ⟨some "sda", .str "sata", true, some "disk", none, none⟩
        "SMART support is: Unavailable. Solid State Device"
      = .ok ("UNKNOWN", ev) :=
  ⟨(C2_unreliable_data_unknown "sda" "sata" true none none
      "Error: smartctl failed" (by decide) (by decide)).1 (by decide),
   (C2_unreliable_data_unknown "sda" "sata" true none none
      "SMART support is: Unavailable. Solid State Device"
      (by decide) (by decide)).2 (by decide)⟩

/-- C9 counterexample: the claim as stated is false. On a rotational disk
record with a fixed identity response containing the substring `"Error"`
mid-text (not as a prefix), the core classifier returns HDD while the legacy
classifier returns UNKNOWN: core tests `smartctl_output.startswith("Error")`
but the legacy code tests `"Error" in smartctl_output`. -/
theorem C9_counterexample :
    Except.map (fun p => DeviceType.value p.1)
        (SecureWipeCore.determine_type
          ⟨some "sda", .str "sata", true, some "disk", none, none⟩
          "I/O Error logged")
      = .ok "HDD" ∧
    Except.map Prod.fst
        (DeviceClassifier.classify
          ⟨some "sda", .str "sata", true, some "disk", none, none⟩
          "I/O Error logged")
      = .ok "UNKNOWN" ∧
    ("HDD" : String) ≠ "UNKNOWN" := by
  exact ⟨by decide, by decide, by decide⟩

/-- C9 amended: for every record (with a present string name and string
transport) and every fixed identity response, the legacy classifier of
pyscript.py and the core classifier agree (comparing the enum value string
with the legacy string), provided the unreliability signals of the response
coincide — that is, whenever the response contains `"Error"` or
`"Unavailable"` anywhere it also starts with the `"Error"` failure prefix.
On responses with a mid-text `"Error"` or `"Unavailable"` the two
classifiers genuinely diverge (see the counterexample). -/
theorem C9_classifier_equivalence (n t : String) (rota : Bool)
    (dt m sz : Option String) (smart : String)
    (hsig : (containsSub smart "Error" || containsSub smart "Unavailable") = true →
            startsWithStr smart "Error" = true) :
    Except.map (fun p => DeviceType.value p.1)
        (SecureWipeCore.determine_type ⟨some n, .str t, rota, dt, m, sz⟩ smart)
      = Except.map Prod.fst
        (DeviceClassifier.classify ⟨some n, .str t, rota, dt, m, sz⟩ smart) := by
  unfold SecureWipeCore.determine_type DeviceClassifier.classify
  by_cases husb : pyLower t = "usb"
  · simp [pyGetLower, husb, DeviceType.value, Except.map]
  · by_cases hnvme : startsWithStr n "nvme" = true
    · simp [pyGetLower, husb, hnvme, DeviceType.value, Except.map]
    · by_cases hdisk : dt = some "disk"
      · by_cases herr : startsWithStr smart "Error" = true
        · have hce : containsSub smart "Error" = true := startsWith_containsSub herr
          simp [pyGetLower, husb, hnvme, hdisk, herr, hce, DeviceType.value, Except.map]
        · have hmark : (containsSub smart "Error" || containsSub smart "Unavailable")
              = false := by
            cases hx : (containsSub smart "Error" || containsSub smart "Unavailable") with
            | false => rfl
            | true => exact absurd (hsig hx) herr
          have h12 := Bool.or_eq_false_iff.mp hmark
          by_cases hssd : containsSub smart "Solid State Device" = true
          · simp [pyGetLower, husb, hnvme, hdisk, herr, h12.1, h12.2, hssd,
              DeviceType.value, Except.map]
          · cases rota <;>
              simp [pyGetLower, husb, hnvme, hdisk, herr, h12.1, h12.2, hssd,
                DeviceType.value, Except.map]
      · simp [pyGetLower, husb, hnvme, hdisk, DeviceType.value, Except.map]

/-- Witness for C9 amended: a clean SSD-confirming response containing
neither marker. -/
theorem C9_witness :
    Except.map (fun p => DeviceType.value p.1)
        (SecureWipeCore.determine_type
          ⟨some "sda", .str "sata", false, some "disk", none, none⟩
          "Device is a Solid State Device")
      = Except.map Prod.fst
        (DeviceClassifier.classify
          ⟨some "sda", .str "sata", false, some "disk", none, none⟩
          "Device is a Solid State Device") :=
  C9_classifier_equivalence "sda" "sata" false (some "disk") none none
    "Device is a Solid State Device" (by decide)

/-- C3: evaluation of the terminal-state dispatch at the cancellation
outcome. The two-phase cancel leaves the child terminated by SIGTERM or
SIGKILL, so `Popen.poll()` returns `-15` or `-9`; the monitor loop at
gui.py line 725 only ends once `poll()` is not `None`, and the dispatch at
lines 794-803 then sends any non-zero set return code — including the
signal-death codes produced by cancellation — to `_wipe_error`, the Failed
terminal state. The `_wipe_cancelled` branch requires a still-unset (`None`)
return code, which the loop exit makes unreachable on the cancellation
path. -/
theorem C3_cancel_ends_failed_not_cancelled (dies_in_grace : Bool) :
    SecureWipeGUI.finish_state (some (SecureWipeGUI.cancel_returncode dies_in_grace))
      = .failed ("Wipe failed with exit code "
          ++ toString (SecureWipeGUI.cancel_returncode dies_in_grace)) ∧
    SecureWipeGUI.finish_state (some (SecureWipeGUI.cancel_returncode dies_in_grace))
      ≠ .cancelled ∧
    (∀ rc : Option Int, SecureWipeGUI.finish_state rc = .cancelled → rc = none) := by
  refine ⟨?_, ?_, ?_⟩
  · cases dies_in_grace <;> decide
  · cases dies_in_grace <;> decide
  · intro rc h
    rcases rc with _ | c
    · rfl
    · unfold SecureWipeGUI.finish_state at h
      split at h <;> simp_all

theorem ddLine_regex_caps :
    SecureWipeGUI.reSearch SecureWipeGUI.ddRE
        "104857600 bytes (105 MB) copied, 2.0 s, 52.4 MB/s"
      = some [(3, ['5', '2', '.', '4']), (2, ['2', '.', '0']),
              (1, ['1', '0', '4', '8', '5', '7', '6', '0', '0'])] := by decide

theorem ddLine_speed_token :
    SecureWipeGUI.speedToken "104857600 bytes (105 MB) copied, 2.0 s, 52.4 MB/s"
      = some "MB/s" := by decide

theorem speed_token_has_no_number :
    SecureWipeGUI.firstNumber "MB/s" = none := by decide

/-- C5: evaluation of the progress parser on the specified line with total
size 1073741824. The byte count and elapsed time parse as claimed and the
percent is 625/64 = 9.765625 (which is the claimed ≈ 9.77); the
normalization table itself maps GB/s ×1024 and KB/s ÷1024 as claimed; but
the normalized throughput of 52.4 MB/s is never produced: the code takes
`output.split()[-1]`, the final whitespace token `"MB/s"`, as its
`speed_text`, finds no number in it, and leaves the stored speed unchanged
(0 here), although the already-matched regex captured `"52.4"` in its
group 3. -/
theorem C5_progress_line_evaluation :
    SecureWipeGUI.parseDdLine "104857600 bytes (105 MB) copied, 2.0 s, 52.4 MB/s"
      = some (104857600, 2) ∧
    SecureWipeGUI.progress_percent 104857600 1073741824 = some ((625 : ℚ) / 64) ∧
    ((976 : ℚ) / 100 < (625 : ℚ) / 64 ∧ (625 : ℚ) / 64 < (977 : ℚ) / 100) ∧
    SecureWipeGUI.speedToken "104857600 bytes (105 MB) copied, 2.0 s, 52.4 MB/s"
      = some "MB/s" ∧
    SecureWipeGUI.firstNumber "MB/s" = none ∧
    SecureWipeGUI.last_dd_speed_after 0
        "104857600 bytes (105 MB) copied, 2.0 s, 52.4 MB/s" = 0 ∧
    (∀ v : ℚ, SecureWipeGUI.normalizeSpeed "GB/s" v = v * 1024 ∧
              SecureWipeGUI.normalizeSpeed "MB/s" v = v ∧
              SecureWipeGUI.normalizeSpeed "KB/s" v = v / 1024) := by
  refine ⟨?_, ?_, ⟨by norm_num, by norm_num⟩, ddLine_speed_token,
    speed_token_has_no_number, ?_, ?_⟩
  · unfold SecureWipeGUI.parseDdLine
    rw [ddLine_regex_caps]
    show some (SecureWipeGUI.parseNatStr "104857600",
               SecureWipeGUI.parseDecStr "2.0") = some (104857600, 2)
    have h1 : SecureWipeGUI.parseNatStr "104857600" = 104857600 := by decide
    have h2 : SecureWipeGUI.parseDecStr "2.0" = 2 := by
      show ((2 : ℕ) : ℚ) + ((0 : ℕ) : ℚ) / (10 : ℚ) ^ (1 : ℕ) = 2
      norm_num
    rw [h1, h2]
  · unfold SecureWipeGUI.progress_percent
    norm_num
  · unfold SecureWipeGUI.last_dd_speed_after
    simp only [ddLine_speed_token, speed_token_has_no_number]
  · intro v
    refine ⟨?_, ?_, ?_⟩
    · simp [SecureWipeGUI.normalizeSpeed,
        show containsSub "GB/s" "GB/s" = true from by decide]
    · simp [SecureWipeGUI.normalizeSpeed,
        show containsSub "MB/s" "GB/s" = false from by decide,
        show containsSub "MB/s" "MB/s" = true from by decide]
    · simp [SecureWipeGUI.normalizeSpeed,
        show containsSub "KB/s" "GB/s" = false from by decide,
        show containsSub "KB/s" "MB/s" = false from by decide,
        show containsSub "KB/s" "KB/s" = true from by decide]
